import Mathlib

/-
Verification of the claude-code-go SDK core: a shallow embedding of the
message parser (parser.go), the client message loops (client.go), the
subprocess transport state machine (transport.go) and the one-shot query
orchestration (query.go), together with proofs of the behavioural claims
about them.

Conventions of the embedding:
- Go values of type interface holding decoded JSON data are modelled by
  the inductive JsonValue below.  Go int values stored in such an
  interface are modelled by the constructor JsonValue.int, Go float64
  values by JsonValue.float carrying a rational number (the exact value
  of the float), mirroring the type switch Go performs on them.
- A Go map from string to interface is modelled as an association list
  looked up by key (JsonMap); the code under verification only ever
  builds maps with distinct keys and only reads them by key.
- Fallible Go functions returning (T, error) are modelled as
  Except String T carrying the exact error message text, and functions
  returning (T, bool) as Option T.
-/

set_option autoImplicit false

namespace ClaudeSDK

/-- A decoded JSON value as held in a Go interface: strings, booleans,
null, arrays and objects, plus numbers, which are split into the int and
float64 representations Go distinguishes in type switches. -/
inductive JsonValue where
  | null
  | bool (b : Bool)
  | int (i : Int)
  | float (q : ℚ)
  | str (s : String)
  | arr (l : List JsonValue)
  | obj (m : List (String × JsonValue))

/-- A Go map from string to interface, as an association list. -/
abbrev JsonMap := List (String × JsonValue)

/-- Key lookup in a Go map: some value when the key is present, none
otherwise (Go indexing with the ok flag). -/
def lookupJson : JsonMap → String → Option JsonValue
  | [], _ => none
  | (k, v) :: rest, key => if k = key then some v else lookupJson rest key

/-- Whether a key is present in the map. -/
def hasKey (m : JsonMap) (k : String) : Bool :=
  (lookupJson m k).isSome

/-- ContentBlock (types.go): tagged union of content block variants. -/
inductive ContentBlock where
  | text (text : String)
  | thinking (thinking : String) (signature : String)
  | toolUse (id : String) (name : String) (input : JsonMap)
  | toolResult (toolUseID : String) (content : Option JsonValue) (isError : Option Bool)

/-- The content field of a UserMessage (types.go): a Go interface that is
either a slice of ContentBlock or the raw content value (possibly nil). -/
inductive UserContent where
  | blocks (l : List ContentBlock)
  | raw (v : Option JsonValue)

/-- ResultMessage (types.go). -/
structure ResultMessage where
  Subtype : String
  DurationMS : Int
  DurationAPIMS : Int
  IsError : Bool
  NumTurns : Int
  SessionID : String
  TotalCostUSD : Option ℚ := none
  Usage : Option JsonMap := none
  Result : Option String := none

/-- Message (types.go): tagged union of the four message variants. -/
inductive Message where
  | user (content : UserContent)
  | assistant (content : List ContentBlock) (model : String)
  | system (subtype : String) (data : JsonMap)
  | result (r : ResultMessage)

/-- MessageData (types.go): the wire struct messages are unmarshalled
into.  Pointer fields and nil-able maps are Options; value fields carry
the Go zero value as default.  The Go field named Type is rendered here
as Type' because Type is reserved in Lean. -/
structure MessageData where
  Type' : String := ""
  Message : Option JsonMap := none
  ParentToolUseID : Option String := none
  SessionID : String := ""
  Content : Option JsonValue := none
  Model : String := ""
  Subtype : String := ""
  Data : Option JsonMap := none
  DurationMS : Int := 0
  DurationAPIMS : Int := 0
  IsError : Bool := false
  NumTurns : Int := 0
  TotalCostUSD : Option ℚ := none
  Usage : Option JsonMap := none
  Result : Option String := none

/-- parseContentBlock (parser.go): decode one content block value. -/
def parseContentBlock (item : JsonValue) : Except String ContentBlock :=
  match item with
  | .obj blockData =>
    match lookupJson blockData "type" with
    | some (.str blockType) =>
      if blockType = "text" then
        match lookupJson blockData "text" with
        | some (.str text) => .ok (.text text)
        | _ => .error "text block missing \x27text\x27 field"
      else if blockType = "thinking" then
        match lookupJson blockData "thinking" with
        | some (.str thinking) =>
          match lookupJson blockData "signature" with
          | some (.str signature) => .ok (.thinking thinking signature)
          | _ => .error "thinking block missing \x27signature\x27 field"
        | _ => .error "thinking block missing \x27thinking\x27 field"
      else if blockType = "tool_use" then
        match lookupJson blockData "id" with
        | some (.str id) =>
          match lookupJson blockData "name" with
          | some (.str name) =>
            match lookupJson blockData "input" with
            | some (.obj input) => .ok (.toolUse id name input)
            | _ => .error "tool_use block missing \x27input\x27 field"
          | _ => .error "tool_use block missing \x27name\x27 field"
        | _ => .error "tool_use block missing \x27id\x27 field"
      else if blockType = "tool_result" then
        match lookupJson blockData "tool_use_id" with
        | some (.str toolUseID) =>
          .ok (.toolResult toolUseID
            (lookupJson blockData "content")
            (match lookupJson blockData "is_error" with
             | some (.bool b) => some b
             | _ => none))
        | _ => .error "tool_result block missing \x27tool_use_id\x27 field"
      else .error ("unknown content block type: " ++ blockType)
    | _ => .error "content block missing \x27type\x27 field"
  | _ => .error "invalid content block format"

/-- The loop over content blocks in parseUserMessage and
parseAssistantMessage (parser.go): decode each element in order,
returning the first error. -/
def parseContentBlocks : List JsonValue → Except String (List ContentBlock)
  | [] => .ok []
  | item :: rest =>
    match parseContentBlock item with
    | .error e => .error e
    | .ok b =>
      match parseContentBlocks rest with
      | .error e => .error e
      | .ok bs => .ok (b :: bs)

/-- parseUserMessage (parser.go). -/
def parseUserMessage (data : JsonMap) : Except String Message :=
  match lookupJson data "message" with
  | some (.obj messageData) =>
    match lookupJson messageData "content" with
    | some (.arr contentList) =>
      match parseContentBlocks contentList with
      | .ok blocks => .ok (.user (.blocks blocks))
      | .error e => .error e
    | other => .ok (.user (.raw other))
  | _ => .error "missing \x27message\x27 field in user message"

/-- parseAssistantMessage (parser.go). -/
def parseAssistantMessage (data : JsonMap) : Except String Message :=
  match lookupJson data "message" with
  | some (.obj messageData) =>
    match lookupJson messageData "model" with
    | some (.str model) =>
      match lookupJson messageData "content" with
      | some (.arr contentData) =>
        match parseContentBlocks contentData with
        | .ok blocks => .ok (.assistant blocks model)
        | .error e => .error e
      | _ => .error "missing or invalid \x27content\x27 field in assistant message"
    | _ => .error "missing \x27model\x27 field in assistant message"
  | _ => .error "missing \x27message\x27 field in assistant message"

/-- parseSystemMessage (parser.go): the whole envelope becomes the Data
field. -/
def parseSystemMessage (data : JsonMap) : Except String Message :=
  match lookupJson data "subtype" with
  | some (.str subtype) => .ok (.system subtype data)
  | _ => .error "missing \x27subtype\x27 field in system message"

/-- Truncation toward zero of a rational, the behaviour of the Go
conversion int(v) on a float64 value v. -/
def ratTruncToInt (q : ℚ) : Int :=
  Int.tdiv q.num (q.den : Int)

/-- getInt (parser.go): extract an integer from a map value, accepting
a Go int unchanged and truncating a float64 toward zero; any other type
or an absent key yields false (here none). -/
def getInt (data : JsonMap) (key : String) : Option Int :=
  match lookupJson data key with
  | some (.int i) => some i
  | some (.float q) => some (ratTruncToInt q)
  | _ => none

/-- parseResultMessage (parser.go). -/
def parseResultMessage (data : JsonMap) : Except String Message :=
  match lookupJson data "subtype" with
  | some (.str subtype) =>
    match getInt data "duration_ms" with
    | some durationMS =>
      match getInt data "duration_api_ms" with
      | some durationAPIMS =>
        match lookupJson data "is_error" with
        | some (.bool isError) =>
          match getInt data "num_turns" with
          | some numTurns =>
            match lookupJson data "session_id" with
            | some (.str sessionID) =>
              .ok (.result
                { Subtype := subtype
                  DurationMS := durationMS
                  DurationAPIMS := durationAPIMS
                  IsError := isError
                  NumTurns := numTurns
                  SessionID := sessionID
                  TotalCostUSD :=
                    match lookupJson data "total_cost_usd" with
                    | some (.float f) => some f
                    | _ => none
                  Usage :=
                    match lookupJson data "usage" with
                    | some (.obj u) => some u
                    | _ => none
                  Result :=
                    match lookupJson data "result" with
                    | some (.str r) => some r
                    | _ => none })
            | _ => .error "missing \x27session_id\x27 field in result message"
          | _ => .error "missing \x27num_turns\x27 field in result message"
        | _ => .error "missing \x27is_error\x27 field in result message"
      | _ => .error "missing \x27duration_api_ms\x27 field in result message"
    | _ => .error "missing \x27duration_ms\x27 field in result message"
  | _ => .error "missing \x27subtype\x27 field in result message"

/-- ParseMessage (parser.go): dispatch on the type discriminator. -/
def ParseMessage (data : JsonMap) : Except String Message :=
  match lookupJson data "type" with
  | some (.str messageType) =>
    if messageType = "user" then parseUserMessage data
    else if messageType = "assistant" then parseAssistantMessage data
    else if messageType = "system" then parseSystemMessage data
    else if messageType = "result" then parseResultMessage data
    else .error ("unknown message type: " ++ messageType)
  | _ => .error "message missing \x27type\x27 field"

/-- The error values produced by the code under verification: errors
constructed with NewCLIConnectionError (errors.go) are distinguished
from plain errors built with the fmt package. -/
inductive GoError where
  | cliConnectionError (msg : String)
  | plainError (msg : String)
deriving DecidableEq

/-- Whether an error is a Connection error of the taxonomy in the spec:
exactly the CLIConnectionError values of errors.go. -/
def isConnectionError : GoError → Bool
  | .cliConnectionError _ => true
  | _ => false

/-- Whether an error is an Unsupported error of the taxonomy in the
spec: the code has no dedicated type for these, so they are the two
plain error values it returns when an operation needs a streaming
bridge (transport.go SendRequest and Interrupt). -/
def isUnsupportedError : GoError → Bool
  | .plainError m =>
      m = "SendRequest only works in streaming mode" ||
      m = "interrupt not implemented for subprocess transport"
  | _ => false

/-- messageDataToMap (client.go): convert a MessageData back into a map
for the parser.  Zero-valued numeric fields, empty strings and nil
pointers are omitted; type and is_error are always present. -/
def messageDataToMap (data : MessageData) : JsonMap :=
  [("type", .str data.Type')]
  ++ (match data.Message with
      | some m => [("message", JsonValue.obj m)]
      | none => [])
  ++ (match data.ParentToolUseID with
      | some s => [("parent_tool_use_id", JsonValue.str s)]
      | none => [])
  ++ (if data.SessionID ≠ "" then [("session_id", JsonValue.str data.SessionID)] else [])
  ++ (match data.Content with
      | some v => [("content", v)]
      | none => [])
  ++ (if data.Model ≠ "" then [("model", JsonValue.str data.Model)] else [])
  ++ (if data.Subtype ≠ "" then [("subtype", JsonValue.str data.Subtype)] else [])
  ++ (match data.Data with
      | some m => [("data", JsonValue.obj m)]
      | none => [])
  ++ (if data.DurationMS > 0 then [("duration_ms", JsonValue.int data.DurationMS)] else [])
  ++ (if data.DurationAPIMS > 0 then [("duration_api_ms", JsonValue.int data.DurationAPIMS)] else [])
  ++ [("is_error", .bool data.IsError)]
  ++ (if data.NumTurns > 0 then [("num_turns", JsonValue.int data.NumTurns)] else [])
  ++ (match data.TotalCostUSD with
      | some f => [("total_cost_usd", JsonValue.float f)]
      | none => [])
  ++ (match data.Usage with
      | some u => [("usage", JsonValue.obj u)]
      | none => [])
  ++ (match data.Result with
      | some r => [("result", JsonValue.str r)]
      | none => [])

/-- mapToMessageData (client.go): read each field out of a map with a
checked type assertion, keeping the zero value on mismatch.  The one
exception in the source is the message field, read with an unchecked
assertion that panics on a non-map value; the model keeps the zero
value there.  A nil interface value (JSON null) stored under content is
indistinguishable from an absent key in Go, hence both map to none. -/
def mapToMessageData (m : JsonMap) : MessageData :=
  { Type' := match lookupJson m "type" with
      | some (.str v) => v
      | _ => ""
    Message := match lookupJson m "message" with
      | some (.obj v) => some v
      | _ => none
    ParentToolUseID := match lookupJson m "parent_tool_use_id" with
      | some (.str v) => some v
      | _ => none
    SessionID := match lookupJson m "session_id" with
      | some (.str v) => v
      | _ => ""
    Content := match lookupJson m "content" with
      | some .null => none
      | some v => some v
      | none => none
    Model := match lookupJson m "model" with
      | some (.str v) => v
      | _ => ""
    Subtype := match lookupJson m "subtype" with
      | some (.str v) => v
      | _ => ""
    Data := match lookupJson m "data" with
      | some (.obj v) => some v
      | _ => none
    DurationMS := match lookupJson m "duration_ms" with
      | some (.int v) => v
      | _ => 0
    DurationAPIMS := match lookupJson m "duration_api_ms" with
      | some (.int v) => v
      | _ => 0
    IsError := match lookupJson m "is_error" with
      | some (.bool v) => v
      | _ => false
    NumTurns := match lookupJson m "num_turns" with
      | some (.int v) => v
      | _ => 0
    TotalCostUSD := match lookupJson m "total_cost_usd" with
      | some (.float v) => some v
      | _ => none
    Usage := match lookupJson m "usage" with
      | some (.obj v) => some v
      | _ => none
    Result := match lookupJson m "result" with
      | some (.str v) => some v
      | _ => none }

/-- Unmarshal a JSON string field into a Go string (encoding json of the
Go standard library, restricted to one object level): absent keys and
null leave the zero value, a wrong type is an error. -/
def unmString (m : JsonMap) (k : String) : Option String :=
  match lookupJson m k with
  | none => some ""
  | some .null => some ""
  | some (.str s) => some s
  | some _ => none

/-- Unmarshal a JSON string field into a Go string pointer. -/
def unmStringPtr (m : JsonMap) (k : String) : Option (Option String) :=
  match lookupJson m k with
  | none => some none
  | some .null => some none
  | some (.str s) => some (some s)
  | some _ => none

/-- Unmarshal a JSON number field into a Go int: the number must be
integral, otherwise unmarshalling errors. -/
def unmInt (m : JsonMap) (k : String) : Option Int :=
  match lookupJson m k with
  | none => some 0
  | some .null => some 0
  | some (.float q) => if q.den = 1 then some q.num else none
  | some (.int i) => some i
  | some _ => none

/-- Unmarshal a JSON boolean field into a Go bool. -/
def unmBool (m : JsonMap) (k : String) : Option Bool :=
  match lookupJson m k with
  | none => some false
  | some .null => some false
  | some (.bool b) => some b
  | some _ => none

/-- Unmarshal a JSON number field into a Go float64 pointer. -/
def unmFloatPtr (m : JsonMap) (k : String) : Option (Option ℚ) :=
  match lookupJson m k with
  | none => some none
  | some .null => some none
  | some (.float q) => some (some q)
  | some (.int i) => some (some (i : ℚ))
  | some _ => none

/-- Unmarshal a JSON object field into a Go map. -/
def unmObjPtr (m : JsonMap) (k : String) : Option (Option JsonMap) :=
  match lookupJson m k with
  | none => some none
  | some .null => some none
  | some (.obj o) => some (some o)
  | some _ => none

/-- Unmarshal a JSON field into a Go interface value: always succeeds,
null becomes the nil interface. -/
def unmAny (m : JsonMap) (k : String) : Option JsonValue :=
  match lookupJson m k with
  | some .null => none
  | some v => some v
  | none => none

/-- Unmarshalling one decoded JSON object into MessageData, following
the struct tags of types.go under the semantics of the encoding json
package of the Go standard library: each known key must match its field
type, unknown keys are ignored. -/
def unmarshalMessageData (m : JsonMap) : Option MessageData := do
  let t ← unmString m "type"
  let message ← unmObjPtr m "message"
  let parentToolUseID ← unmStringPtr m "parent_tool_use_id"
  let sessionID ← unmString m "session_id"
  let content := unmAny m "content"
  let model ← unmString m "model"
  let subtype ← unmString m "subtype"
  let dataField ← unmObjPtr m "data"
  let durationMS ← unmInt m "duration_ms"
  let durationAPIMS ← unmInt m "duration_api_ms"
  let isError ← unmBool m "is_error"
  let numTurns ← unmInt m "num_turns"
  let totalCostUSD ← unmFloatPtr m "total_cost_usd"
  let usage ← unmObjPtr m "usage"
  let result ← unmStringPtr m "result"
  some
    { Type' := t
      Message := message
      ParentToolUseID := parentToolUseID
      SessionID := sessionID
      Content := content
      Model := model
      Subtype := subtype
      Data := dataField
      DurationMS := durationMS
      DurationAPIMS := durationAPIMS
      IsError := isError
      NumTurns := numTurns
      TotalCostUSD := totalCostUSD
      Usage := usage
      Result := result }

/-- The full inbound decode pipeline of the client (transport.go
unmarshals a line into MessageData, client.go converts it with
messageDataToMap and hands it to ParseMessage): the input is the decoded
JSON object of one line. -/
def decodeEnvelope (m : JsonMap) : Option Message :=
  match unmarshalMessageData m with
  | none => none
  | some d => (ParseMessage (messageDataToMap d)).toOption

/-- The mutable fields of SubprocessCLITransport (transport.go) that
its operations consult, with handles abstracted to presence flags:
stdinOpen models stdin being non-nil, hasProcess models cmd and
cmd.Process being non-nil, hasStderrFile models stderrFile being
non-nil. -/
structure TransportState where
  isStreaming : Bool
  connected : Bool
  stdinOpen : Bool
  hasProcess : Bool
  hasStderrFile : Bool
deriving DecidableEq

/-- The externally visible cleanup effects of
SubprocessCLITransport.Disconnect (transport.go). -/
inductive CleanupEffect where
  | closeStdin
  | killProcess
  | removeStderrFile
deriving DecidableEq

/-- SubprocessCLITransport.Disconnect (transport.go): a no-op when not
connected; otherwise close stdin if open, kill and reap the process if
present, close and remove the stderr file if present, clear the
connected flag.  Always returns nil. -/
def transportDisconnect (t : TransportState) :
    TransportState × List CleanupEffect × Option GoError :=
  if t.connected = false then (t, [], none)
  else
    ({ t with connected := false, stdinOpen := false, hasStderrFile := false },
     (if t.stdinOpen then [CleanupEffect.closeStdin] else [])
       ++ (if t.hasProcess then [CleanupEffect.killProcess] else [])
       ++ (if t.hasStderrFile then [CleanupEffect.removeStderrFile] else []),
     none)

/-- The write effects SendRequest performs on the child process. -/
inductive IOEffect where
  | writeLine (d : MessageData)

/-- SubprocessCLITransport.SendRequest (transport.go): rejected outside
streaming mode, rejected when stdin is gone, otherwise each message is
written as one line after filling in a missing session id from the
metadata (default when the metadata has none). -/
def sendRequest (t : TransportState) (messages : List MessageData)
    (metadata : JsonMap) : Option GoError × List IOEffect :=
  if t.isStreaming = false then
    (some (.plainError "SendRequest only works in streaming mode"), [])
  else if t.stdinOpen = false then
    (some (.plainError "stdin not available - stream may have ended"), [])
  else
    (none,
     messages.map (fun msg =>
       .writeLine
         (if msg.SessionID = "" then
            { msg with SessionID :=
                match lookupJson metadata "session_id" with
                | some (.str s) => s
                | _ => "default" }
          else msg)))

/-- SubprocessCLITransport.Interrupt (transport.go): unconditionally
returns the not-implemented error and touches nothing. -/
def transportInterrupt (_ : TransportState) : Option GoError × List IOEffect :=
  (some (.plainError "interrupt not implemented for subprocess transport"), [])

/-- The state of a Client (client.go): the connected flag and the
transport handle, present after a successful Connect. -/
structure ClientState where
  connected : Bool
  transport : Option TransportState
deriving DecidableEq

/-- Client.Disconnect (client.go): when a transport is held, disconnect
it, drop the handle and clear the connected flag; otherwise do
nothing.  Returns the transport error, which is always nil. -/
def clientDisconnect (c : ClientState) :
    ClientState × List CleanupEffect × Option GoError :=
  match c.transport with
  | some t =>
    let r := transportDisconnect t
    ({ connected := false, transport := none }, r.2.1, r.2.2)
  | none => (c, [], none)

/-- The prompt argument of Client.Query (client.go): a string, a
sequence of maps (covering both the channel and the slice case, which
the source treats identically), or a value of any other type. -/
inductive Prompt where
  | str (s : String)
  | msgList (l : List JsonMap)
  | unsupportedType

/-- The message-building switch of Client.Query (client.go): a string
prompt becomes one user MessageData; maps get the session id injected
when absent and are converted with mapToMessageData; any other type is
an error. -/
def promptToMessages (p : Prompt) (sessionID : String) :
    Except GoError (List MessageData) :=
  match p with
  | .str s =>
    .ok [{ Type' := "user"
           Message := some [("role", .str "user"), ("content", .str s)]
           ParentToolUseID := none
           SessionID := sessionID }]
  | .msgList l =>
    .ok (l.map (fun m =>
      mapToMessageData
        (if hasKey m "session_id" then m
         else m ++ [("session_id", .str sessionID)])))
  | .unsupportedType => .error (.plainError "unsupported prompt type")

/-- Client.Query (client.go): a Connection error while not connected,
before any transport interaction; otherwise build the outbound messages
for the (defaulted) session id and hand them to SendRequest when there
is at least one. -/
def clientQuery (connected : Bool) (t : TransportState) (p : Prompt)
    (sessionID : String) : Option GoError × List IOEffect :=
  if connected = false then
    (some (.cliConnectionError "Not connected. Call Connect() first."), [])
  else
    let sid := if sessionID = "" then "default" else sessionID
    match promptToMessages p sid with
    | .error e => (some e, [])
    | .ok messages =>
      if messages.length > 0 then
        sendRequest t messages [("session_id", .str sid)]
      else (none, [])

/-- Client.Interrupt (client.go): a Connection error while not
connected, otherwise delegate to the transport. -/
def clientInterrupt (connected : Bool) (t : TransportState) :
    Option GoError × List IOEffect :=
  if connected = false then
    (some (.cliConnectionError "Not connected. Call Connect() first."), [])
  else transportInterrupt t

/-- The parse-and-forward loop of Client.ReceiveMessages (client.go):
each raw MessageData is converted and parsed; a parse error drops the
frame and the loop continues with the next one. -/
def receiveMessagesLoop : List MessageData → List Message
  | [] => []
  | d :: rest =>
    match ParseMessage (messageDataToMap d) with
    | .ok msg => msg :: receiveMessagesLoop rest
    | .error _ => receiveMessagesLoop rest

/-- Whether a message is a ResultMessage (the type test in
Client.ReceiveResponse). -/
def isResult : Message → Bool
  | .result _ => true
  | _ => false

/-- Client.ReceiveResponse (client.go): forward each inbound message,
returning right after forwarding a ResultMessage. -/
def receiveResponse : List Message → List Message
  | [] => []
  | msg :: rest =>
    msg :: (if isResult msg then [] else receiveResponse rest)

/-- How many messages Client.ReceiveResponse pulls from the inbound
stream: every forwarded message was pulled, and after a ResultMessage
is forwarded nothing further is pulled. -/
def receiveResponseReads : List Message → Nat
  | [] => 0
  | msg :: rest =>
    1 + (if isResult msg then 0 else receiveResponseReads rest)

/-- The error-detection step of QuerySync (query.go): a SystemMessage
with subtype error whose data carries an error string. -/
def sysErrString : Message → Option String
  | .system subtype dataMap =>
    if subtype = "error" then
      match lookupJson dataMap "error" with
      | some (.str e) => some e
      | _ => none
    else none
  | _ => none

/-- QuerySync (query.go): collect the streamed messages in order; when
a message carries a transport error string, stop and return the
messages collected so far together with a CLIConnectionError. -/
def querySync : List Message → List Message × Option GoError
  | [] => ([], none)
  | msg :: rest =>
    match sysErrString msg with
    | some e => ([msg], some (.cliConnectionError e))
    | none =>
      let r := querySync rest
      (msg :: r.1, r.2)

/-- Modelled from the spec: the condition the spec phrases as a
delivered message signalling a transport-level error condition, namely
being a System message with subtype error.  Used only to state claim
C8 in the form the spec gives it, for comparison with the source
condition sysErrString. -/
def specSignalsError : Message → Bool
  | .system subtype _ => subtype = "error"
  | _ => false

/-- Whitespace as trimmed by strings.TrimSpace on the line-oriented
output handled here. -/
def isSpaceChar (c : Char) : Bool :=
  c = ' ' || c = '\t' || c = '\n' || c = '\r'

/-- strings.TrimSpace of the Go standard library: drop leading and
trailing whitespace. -/
def trimSpace (s : String) : String :=
  String.mk (((s.data.dropWhile isSpaceChar).reverse.dropWhile isSpaceChar).reverse)

/-- The byte length Go's len gives for a string: the number of bytes of
its UTF-8 encoding. -/
def goLen (s : String) : Nat :=
  (s.data.map Char.utf8Size).sum

/-- maxBufferSize (transport.go): 1 MiB. -/
def maxBufferSize : Nat := 1024 * 1024

/-- One event the readMessages loop emits: either a decoded MessageData
on the message channel or the buffer overflow error on the error
channel. -/
inductive ReadEvent where
  | message (d : MessageData)
  | overflowError

/-- One iteration of the scanner loop in
SubprocessCLITransport.readMessages (transport.go), parameterised by
the JSON unmarshaller: trim the line, skip it when empty, append it to
the accumulation buffer, emit the overflow error and reset the buffer
when the buffer got too large, otherwise try to parse the whole buffer,
clearing it and emitting the decoded message (unless it is a filtered
control response) on success and keeping it on failure.  Returns the
new buffer and the emitted events. -/
def readLine (parse : String → Option MessageData) (buffer line : String) :
    String × List ReadEvent :=
  let l := trimSpace line
  if l = "" then (buffer, [])
  else
    let jsonBuffer := buffer ++ l
    if goLen jsonBuffer > maxBufferSize then ("", [.overflowError])
    else
      match parse jsonBuffer with
      | some d =>
        ("", if d.Type' = "control_response" then [] else [.message d])
      | none => (jsonBuffer, [])

/-- The scanner loop of SubprocessCLITransport.readMessages
(transport.go) over a whole sequence of lines, starting from a given
accumulation buffer. -/
def readMessages (parse : String → Option MessageData) :
    String → List String → List ReadEvent
  | _, [] => []
  | buffer, line :: rest =>
    let r := readLine parse buffer line
    r.2 ++ readMessages parse r.1 rest

/-- Whether a content block value is one the claims call invalid for
dispatch reasons: an object whose type discriminator is missing, not a
string, or not a recognized block kind, or a recognized kind with a
required field missing. -/
def blockBad (v : JsonValue) : Bool :=
  match v with
  | .obj blockData =>
    match lookupJson blockData "type" with
    | some (.str t) =>
      if t = "text" then !(hasKey blockData "text")
      else if t = "thinking" then
        !(hasKey blockData "thinking") || !(hasKey blockData "signature")
      else if t = "tool_use" then
        !(hasKey blockData "id") || !(hasKey blockData "name") ||
          !(hasKey blockData "input")
      else if t = "tool_result" then !(hasKey blockData "tool_use_id")
      else true
    | _ => true
  | _ => false

/-- The class of envelopes claim C4 quantifies over: the top-level type
discriminator is missing, not a string, or unrecognized; or a required
field of the recognized type is missing; or a content block list
contains a block that is bad in the sense of blockBad. -/
def claimBadEnvelope (m : JsonMap) : Bool :=
  match lookupJson m "type" with
  | some (.str t) =>
    if t = "user" then
      match lookupJson m "message" with
      | none => true
      | some (.obj mo) =>
        match lookupJson mo "content" with
        | some (.arr l) => l.any blockBad
        | _ => false
      | some _ => false
    else if t = "assistant" then
      match lookupJson m "message" with
      | none => true
      | some (.obj mo) =>
        !(hasKey mo "model") || !(hasKey mo "content") ||
          (match lookupJson mo "content" with
           | some (.arr l) => l.any blockBad
           | _ => false)
      | some _ => false
    else if t = "system" then !(hasKey m "subtype")
    else if t = "result" then
      !(hasKey m "subtype") || !(hasKey m "duration_ms") ||
        !(hasKey m "duration_api_ms") || !(hasKey m "is_error") ||
        !(hasKey m "num_turns") || !(hasKey m "session_id")
    else true
  | _ => true

/-- Modelled from the spec: a result envelope with all required fields
present, as claim C2 quantifies over envelopes.  Used only to state the
counterexample to C2. -/
def resultRequiredPresent (m : JsonMap) : Bool :=
  (match lookupJson m "type" with
   | some (.str t) => t = "result"
   | _ => false) &&
  hasKey m "subtype" && hasKey m "duration_ms" && hasKey m "duration_api_ms" &&
  hasKey m "is_error" && hasKey m "num_turns" && hasKey m "session_id"

/-- The decoded JSON object of a well-typed result line, as the
amendment of claim C2 quantifies over them: the required fields carry
the given values (numbers written as JSON numbers), cost and result
text are optionally present. -/
def resultEnvelope (st : String) (d da : Int) (er : Bool) (nt : Int)
    (sid : String) (tc : Option ℚ) (res : Option String) : JsonMap :=
  [("type", .str "result"), ("subtype", .str st),
   ("duration_ms", .float (d : ℚ)), ("duration_api_ms", .float (da : ℚ)),
   ("is_error", .bool er), ("num_turns", .float (nt : ℚ)),
   ("session_id", .str sid)]
  ++ (match tc with
      | some c => [("total_cost_usd", JsonValue.float c)]
      | none => [])
  ++ (match res with
      | some r => [("result", JsonValue.str r)]
      | none => [])

/-- C1: Client.ReceiveResponse forwards the inbound messages one at a
time in order and terminates immediately after forwarding the first
Result message, reading no further message: for an inbound stream that
is a result-free prefix, then a Result message, then anything, the
forwarded sequence is exactly the prefix plus that Result message and
the number of messages pulled from the stream is the length of the
forwarded sequence. -/
theorem receiveResponse_stops_at_first_result (pre : List Message) (r : Message)
    (post : List Message)
    (hpre : ∀ m ∈ pre, isResult m = false) (hr : isResult r = true) :
    receiveResponse (pre ++ r :: post) = pre ++ [r] ∧
    receiveResponseReads (pre ++ r :: post) = pre.length + 1 := by
  induction pre with
  | nil => simp [receiveResponse, receiveResponseReads, hr]
  | cons m rest ih =>
    have hm : isResult m = false := hpre m (by simp)
    have hrest : ∀ x ∈ rest, isResult x = false := fun x hx => hpre x (by simp [hx])
    obtain ⟨ih1, ih2⟩ := ih hrest
    refine ⟨?_, ?_⟩
    · simp [receiveResponse, hm, ih1]
    · simp [receiveResponseReads, hm, ih2]
      omega

/-- C1 witness: the canned sequence System(info), Assistant(text hi),
Result(success, one turn) followed by one further message yields
exactly the first three messages in order, and only three messages are
pulled, so the fourth is never read. -/
theorem receiveResponse_stops_at_first_result_witness :
    receiveResponse
      [Message.system "info" [],
       Message.assistant [ContentBlock.text "hi"] "claude",
       Message.result
         { Subtype := "success", DurationMS := 0, DurationAPIMS := 0,
           IsError := false, NumTurns := 1, SessionID := "s1" },
       Message.system "extra" []] =
      [Message.system "info" [],
       Message.assistant [ContentBlock.text "hi"] "claude",
       Message.result
         { Subtype := "success", DurationMS := 0, DurationAPIMS := 0,
           IsError := false, NumTurns := 1, SessionID := "s1" }] ∧
    receiveResponseReads
      [Message.system "info" [],
       Message.assistant [ContentBlock.text "hi"] "claude",
       Message.result
         { Subtype := "success", DurationMS := 0, DurationAPIMS := 0,
           IsError := false, NumTurns := 1, SessionID := "s1" },
       Message.system "extra" []] = 3 := by
  have h := receiveResponse_stops_at_first_result
    [Message.system "info" [], Message.assistant [ContentBlock.text "hi"] "claude"]
    (Message.result
      { Subtype := "success", DurationMS := 0, DurationAPIMS := 0,
        IsError := false, NumTurns := 1, SessionID := "s1" })
    [Message.system "extra" []]
    (by decide)
    rfl
  simpa using h

/-- C5: calling disconnect twice in sequence performs each cleanup
effect at most once (the second call performs none at all) and returns
without error both times, from every starting client state. -/
theorem clientDisconnect_idempotent (c : ClientState) :
    (clientDisconnect c).2.2 = none ∧
    (clientDisconnect (clientDisconnect c).1).2.2 = none ∧
    (clientDisconnect (clientDisconnect c).1).2.1 = [] ∧
    ∀ eff : CleanupEffect,
      ((clientDisconnect c).2.1 ++
        (clientDisconnect (clientDisconnect c).1).2.1).count eff ≤ 1 := by
  rcases c with ⟨conn, _ | t⟩
  · simp [clientDisconnect]
  · rcases t with ⟨s, c2, si, hp, hsf⟩
    cases c2 <;> cases si <;> cases hp <;> cases hsf <;>
      refine ⟨rfl, rfl, rfl, ?_⟩ <;>
      (intro eff
       simp only [clientDisconnect, transportDisconnect]
       cases eff <;> simp)

/-- C6: Client.Query while disconnected returns a Connection error for
every prompt and session id and performs no transport I O; and for a
connected client whose transport was not configured for streaming, a
string prompt (the sendTurn shape) is rejected by SendRequest with the
Unsupported error, again with no write performed. -/
theorem clientQuery_state_errors (t : TransportState) (p : Prompt) (sid : String) :
    (∃ e, clientQuery false t p sid = (some e, []) ∧ isConnectionError e = true) ∧
    (∀ s : String, t.isStreaming = false →
      ∃ e, clientQuery true t (.str s) sid = (some e, []) ∧
        isUnsupportedError e = true) := by
  constructor
  · exact ⟨.cliConnectionError "Not connected. Call Connect() first.",
      by simp [clientQuery], rfl⟩
  · intro s hs
    refine ⟨.plainError "SendRequest only works in streaming mode", ?_, rfl⟩
    simp [clientQuery, promptToMessages, sendRequest, hs]

/-- C6 witness: the disconnected case at a concrete prompt, and the
connected non-streaming case for a concrete string prompt. -/
theorem clientQuery_state_errors_witness :
    (∃ e, clientQuery false
        ⟨false, false, false, false, false⟩ (.str "hi") "" = (some e, []) ∧
        isConnectionError e = true) ∧
    (∃ e, clientQuery true
        ⟨false, true, true, true, true⟩ (.str "hi") "" = (some e, []) ∧
        isUnsupportedError e = true) :=
  ⟨(clientQuery_state_errors ⟨false, false, false, false, false⟩ (.str "hi") "").1,
   (clientQuery_state_errors ⟨false, true, true, true, true⟩ (.str "hi") "").2 "hi" rfl⟩

/-- C7: interrupt on a client whose transport lacks streaming support
fails with the Unsupported error, and interrupt while disconnected
fails with a Connection error; in both cases nothing is written to the
transport. -/
theorem clientInterrupt_unsupported (conn : Bool) (t : TransportState) :
    (conn = false →
      ∃ e, clientInterrupt conn t = (some e, []) ∧ isConnectionError e = true) ∧
    (conn = true → t.isStreaming = false →
      ∃ e, clientInterrupt conn t = (some e, []) ∧ isUnsupportedError e = true) := by
  constructor
  · rintro rfl
    exact ⟨.cliConnectionError "Not connected. Call Connect() first.",
      by simp [clientInterrupt], rfl⟩
  · rintro rfl -
    exact ⟨.plainError "interrupt not implemented for subprocess transport",
      by simp [clientInterrupt, transportInterrupt], rfl⟩

/-- C7 witness: both cases at a concrete non-streaming transport
state. -/
theorem clientInterrupt_unsupported_witness :
    (∃ e, clientInterrupt false ⟨false, true, true, true, true⟩ = (some e, []) ∧
      isConnectionError e = true) ∧
    (∃ e, clientInterrupt true ⟨false, true, true, true, true⟩ = (some e, []) ∧
      isUnsupportedError e = true) :=
  ⟨(clientInterrupt_unsupported false ⟨false, true, true, true, true⟩).1 rfl,
   (clientInterrupt_unsupported true ⟨false, true, true, true, true⟩).2 rfl rfl⟩

/-- C8 counterexample: a delivered System message with subtype error
signals a transport-level error condition in the sense of the claim,
yet QuerySync returns no Connection error for it, because its data
carries no error string; the claim as stated is false. -/
theorem querySync_counterexample :
    specSignalsError (Message.system "error" []) = true ∧
    querySync [Message.system "error" []] = ([Message.system "error" []], none) :=
  ⟨rfl, rfl⟩

/-- C8 (amended): QuerySync returns the ordered sequence of messages
collected from the stream, and when some delivered message is a System
message with subtype error whose data carries an error string, it
returns a Connection error built from that string together with the
partial sequence collected so far, which ends with that message. -/
theorem querySync_collects_and_stops (msgs : List Message) :
    ((∀ m ∈ msgs, sysErrString m = none) → querySync msgs = (msgs, none)) ∧
    (∀ (pre post : List Message) (m : Message) (e : String),
      msgs = pre ++ m :: post →
      (∀ x ∈ pre, sysErrString x = none) →
      sysErrString m = some e →
      querySync msgs = (pre ++ [m], some (.cliConnectionError e))) := by
  constructor
  · intro h
    induction msgs with
    | nil => rfl
    | cons x rest ih =>
      have hx : sysErrString x = none := h x (by simp)
      have hrest := ih (fun y hy => h y (by simp [hy]))
      simp [querySync, hx, hrest]
  · intro pre post m e hmsgs hpre hm
    subst hmsgs
    induction pre with
    | nil => simp [querySync, hm]
    | cons x rest ih =>
      have hx : sysErrString x = none := hpre x (by simp)
      have hrest := ih (fun y hy => hpre y (by simp [hy]))
      simp [querySync, hx, hrest]

/-- C8 witness: a stream with one ordinary message followed by a System
error message carrying an error string stops with the Connection error
and the two collected messages. -/
theorem querySync_collects_and_stops_witness :
    querySync
      [Message.assistant [ContentBlock.text "hi"] "claude",
       Message.system "error" [("error", JsonValue.str "boom")]] =
      ([Message.assistant [ContentBlock.text "hi"] "claude",
        Message.system "error" [("error", JsonValue.str "boom")]],
       some (.cliConnectionError "boom")) := by
  have h := (querySync_collects_and_stops
    [Message.assistant [ContentBlock.text "hi"] "claude",
     Message.system "error" [("error", JsonValue.str "boom")]]).2
    [Message.assistant [ContentBlock.text "hi"] "claude"] []
    (Message.system "error" [("error", JsonValue.str "boom")]) "boom"
    rfl (by decide) rfl
  simpa using h

/-- Helper for C9: when the content value under the message object is
present but not a JSON array, parseUserMessage stores it unchanged. -/
theorem parseUserMessage_not_arr (data : JsonMap) (mo : JsonMap) (cv : JsonValue)
    (hm : lookupJson data "message" = some (.obj mo))
    (hc : lookupJson mo "content" = some cv)
    (hne : ∀ l, cv ≠ .arr l) :
    parseUserMessage data = .ok (.user (.raw (some cv))) := by
  cases cv
  case arr l => exact absurd rfl (hne l)
  all_goals simp [parseUserMessage, hm, hc]

/-- C9: parseUserMessage succeeds whenever the envelope has a message
object whose content value is not a JSON array, storing the content
value unchanged and unvalidated; and it fails exactly when the message
field is missing or not an object, or the content is an array
containing an invalid content block. -/
theorem parseUserMessage_content_policy (data : JsonMap) :
    (∀ (mo : JsonMap) (c : Option JsonValue),
      lookupJson data "message" = some (.obj mo) →
      lookupJson mo "content" = c →
      (∀ l, c ≠ some (.arr l)) →
      parseUserMessage data = .ok (.user (.raw c))) ∧
    ((∃ e, parseUserMessage data = .error e) ↔
      ((∀ mo : JsonMap, lookupJson data "message" ≠ some (.obj mo)) ∨
       (∃ (mo : JsonMap) (l : List JsonValue) (e : String),
         lookupJson data "message" = some (.obj mo) ∧
         lookupJson mo "content" = some (.arr l) ∧
         parseContentBlocks l = .error e))) := by
  constructor
  · intro mo c hm hc hne
    subst hc
    rcases hcc : lookupJson mo "content" with _ | cv
    · simp [parseUserMessage, hm, hcc]
    · rw [hcc] at hne
      exact parseUserMessage_not_arr data mo cv hm hcc
        (fun l h => hne l (by rw [h]))
  · constructor
    · rintro ⟨e, he⟩
      rcases hm : lookupJson data "message" with _ | v
      · exact Or.inl (fun mo h => by simp at h)
      · cases v
        case obj mo =>
          rcases hc : lookupJson mo "content" with _ | cv
          · simp [parseUserMessage, hm, hc] at he
          · cases cv
            case arr l =>
              rcases hb : parseContentBlocks l with e' | bs
              · exact Or.inr ⟨mo, l, e', rfl, hc, hb⟩
              · simp [parseUserMessage, hm, hc, hb] at he
            all_goals simp [parseUserMessage, hm, hc] at he
        all_goals exact Or.inl (fun mo h => by simp at h)
    · rintro (h | ⟨mo, l, e, h1, h2, h3⟩)
      · rcases hm : lookupJson data "message" with _ | v
        · exact ⟨"missing \x27message\x27 field in user message",
            by simp [parseUserMessage, hm]⟩
        · cases v
          case obj mo => exact absurd hm (h mo)
          all_goals exact ⟨"missing \x27message\x27 field in user message",
            by simp [parseUserMessage, hm]⟩
      · exact ⟨e, by simp [parseUserMessage, h1, h2, h3]⟩

/-- C9 witness: a user envelope with a plain string content decodes to
a UserMessage holding that value unchanged, and a user envelope without
a message object fails. -/
theorem parseUserMessage_content_policy_witness :
    parseUserMessage [("message", JsonValue.obj [("content", JsonValue.str "hello")])] =
      .ok (.user (.raw (some (.str "hello")))) ∧
    (∃ e, parseUserMessage [("type", JsonValue.str "user")] = .error e) :=
  ⟨(parseUserMessage_content_policy
      [("message", JsonValue.obj [("content", JsonValue.str "hello")])]).1
      [("content", JsonValue.str "hello")] (some (.str "hello")) rfl rfl
      (fun l h => by simp at h),
   (parseUserMessage_content_policy [("type", JsonValue.str "user")]).2.mpr
      (Or.inl (fun mo => by simp [lookupJson]))⟩

/-- Appending to the empty string is the identity. -/
theorem empty_append_str (s : String) : "" ++ s = s := by
  cases s
  rfl

/-- dropWhile of a non-whitespace character repetition is the identity. -/
theorem dropWhile_replicate_nonspace (n : Nat) (c : Char) (hc : isSpaceChar c = false) :
    List.dropWhile isSpaceChar (List.replicate n c) = List.replicate n c := by
  induction n with
  | zero => rfl
  | succ k ih => simp [List.replicate_succ, List.dropWhile, hc, ih]

/-- trimSpace of a non-whitespace character repetition is the identity. -/
theorem trimSpace_replicate_nonspace (n : Nat) (c : Char) (hc : isSpaceChar c = false) :
    trimSpace (String.mk (List.replicate n c)) = String.mk (List.replicate n c) := by
  simp [trimSpace, dropWhile_replicate_nonspace n c hc, List.reverse_replicate,
    dropWhile_replicate_nonspace]

/-- The Go byte length of a repetition of the character a. -/
theorem goLen_replicate_a (n : Nat) :
    goLen (String.mk (List.replicate n 'a')) = n := by
  have h1 : Char.utf8Size 'a' = 1 := by decide
  simp [goLen, List.map_replicate, h1, List.sum_replicate, smul_eq_mul]

/-- C3: when the accumulation buffer of the readMessages loop exceeds
the 1 MiB maximum after a line is appended, exactly one overflow error
is emitted for that line and the buffer is reset to empty, so a
subsequent well-formed line still decodes into a delivered message:
processing the two lines emits exactly the overflow error followed by
the decoded message. -/
theorem readMessages_overflow_resets (parse : String → Option MessageData)
    (buffer l1 l2 : String) (d : MessageData)
    (h1 : trimSpace l1 ≠ "")
    (h2 : goLen (buffer ++ trimSpace l1) > maxBufferSize)
    (h3 : trimSpace l2 ≠ "")
    (h4 : goLen (trimSpace l2) ≤ maxBufferSize)
    (h5 : parse (trimSpace l2) = some d)
    (h6 : d.Type' ≠ "control_response") :
    readLine parse buffer l1 = ("", [.overflowError]) ∧
    readMessages parse buffer [l1, l2] = [.overflowError, .message d] := by
  have hstep1 : readLine parse buffer l1 = ("", [.overflowError]) := by
    simp [readLine, h1, h2]
  have hnotover : ¬ goLen ("" ++ trimSpace l2) > maxBufferSize := by
    rw [empty_append_str]
    omega
  have hstep2 : readLine parse "" l2 = ("", [.message d]) := by
    simp [readLine, h3, hnotover, empty_append_str, h5, h6, h4]
  refine ⟨hstep1, ?_⟩
  simp [readMessages, hstep1, hstep2]

/-- C3 witness: a line of 1 MiB plus one bytes overflows the buffer,
emitting one overflow error and resetting; the following line, which
the unmarshaller accepts, is then delivered. -/
theorem readMessages_overflow_resets_witness :
    readLine (fun s => if s = "ok" then some { Type' := "result" } else none)
        "" (String.mk (List.replicate (1024 * 1024 + 1) 'a')) =
      ("", [.overflowError]) ∧
    readMessages (fun s => if s = "ok" then some { Type' := "result" } else none)
        "" [String.mk (List.replicate (1024 * 1024 + 1) 'a'), "ok"] =
      [.overflowError, .message { Type' := "result" }] := by
  have htrim := trimSpace_replicate_nonspace (1024 * 1024 + 1) 'a' (by decide)
  apply readMessages_overflow_resets
  · rw [htrim]
    intro h
    have hd : List.replicate (1024 * 1024 + 1) 'a' = ("".data) :=
      congrArg String.data h
    have h3 := congrArg List.length hd
    rw [List.length_replicate] at h3
    have h4 : ("".data).length = 0 := rfl
    rw [h4] at h3
    omega
  · rw [htrim, empty_append_str, goLen_replicate_a]
    decide
  · decide
  · decide
  · rfl
  · decide

/-- C10: getInt accepts any float64 value and truncates it toward zero,
so a result envelope whose required integer fields carry arbitrary
(possibly non-integral) JSON numbers decodes without error to the
truncated integers. -/
theorem getInt_truncates (st sid : String) (qd qda qnt : ℚ) (er : Bool) :
    ParseMessage
      [("type", .str "result"), ("subtype", .str st),
       ("duration_ms", .float qd), ("duration_api_ms", .float qda),
       ("is_error", .bool er), ("num_turns", .float qnt),
       ("session_id", .str sid)] =
      .ok (.result
        { Subtype := st, DurationMS := ratTruncToInt qd,
          DurationAPIMS := ratTruncToInt qda, IsError := er,
          NumTurns := ratTruncToInt qnt, SessionID := sid,
          TotalCostUSD := none, Usage := none, Result := none }) ∧
    (∀ (m : JsonMap) (k : String) (q : ℚ),
      lookupJson m k = some (.float q) → getInt m k = some (ratTruncToInt q)) := by
  constructor
  · simp [ParseMessage, parseResultMessage, getInt, lookupJson]
  · intro m k q h
    simp [getInt, h]

/-- C10 witness: duration_ms 1500.9 decodes to DurationMS 1500 rather
than an error, with the other numeric fields integral. -/
theorem getInt_truncates_witness :
    ParseMessage
      [("type", .str "result"), ("subtype", .str "success"),
       ("duration_ms", .float (mkRat 15009 10)),
       ("duration_api_ms", .float (mkRat 1200 1)),
       ("is_error", .bool false), ("num_turns", .float (mkRat 1 1)),
       ("session_id", .str "s1")] =
      .ok (.result
        { Subtype := "success", DurationMS := 1500, DurationAPIMS := 1200,
          IsError := false, NumTurns := 1, SessionID := "s1",
          TotalCostUSD := none, Usage := none, Result := none }) ∧
    getInt [("duration_ms", JsonValue.float (mkRat 15009 10))] "duration_ms" =
      some 1500 := by
  have h := getInt_truncates "success" "s1" (mkRat 15009 10) (mkRat 1200 1)
    (mkRat 1 1) false
  have e1 : ratTruncToInt (mkRat 15009 10) = 1500 := by decide
  have e2 : ratTruncToInt (mkRat 1200 1) = 1200 := by decide
  have e3 : ratTruncToInt (mkRat 1 1) = 1 := by decide
  refine ⟨?_, ?_⟩
  · have h1 := h.1
    rw [e1, e2, e3] at h1
    exact h1
  · have h2 := h.2 [("duration_ms", JsonValue.float (mkRat 15009 10))]
      "duration_ms" (mkRat 15009 10) rfl
    rw [e1] at h2
    exact h2

/-- C2 counterexample: a valid result envelope with every required
field present, carrying duration_ms 0, unmarshals fine yet fails the
full decode pipeline, because messageDataToMap omits non-positive
integer fields; the claim as stated is therefore false. -/
theorem decodeEnvelope_counterexample :
    resultRequiredPresent
      [("type", .str "result"), ("subtype", .str "success"),
       ("duration_ms", .float (mkRat 0 1)),
       ("duration_api_ms", .float (mkRat 1200 1)),
       ("is_error", .bool false), ("num_turns", .float (mkRat 1 1)),
       ("session_id", .str "s1")] = true ∧
    (unmarshalMessageData
      [("type", .str "result"), ("subtype", .str "success"),
       ("duration_ms", .float (mkRat 0 1)),
       ("duration_api_ms", .float (mkRat 1200 1)),
       ("is_error", .bool false), ("num_turns", .float (mkRat 1 1)),
       ("session_id", .str "s1")]).isSome = true ∧
    decodeEnvelope
      [("type", .str "result"), ("subtype", .str "success"),
       ("duration_ms", .float (mkRat 0 1)),
       ("duration_api_ms", .float (mkRat 1200 1)),
       ("is_error", .bool false), ("num_turns", .float (mkRat 1 1)),
       ("session_id", .str "s1")] = none :=
  ⟨rfl, rfl, rfl⟩

set_option maxHeartbeats 4000000 in
/-- Helper for C2, the result case: a well-typed result envelope with
all required fields present decodes through the full pipeline with
every field value unchanged, provided the required string fields are
non-empty and the required integer fields are positive, the conversion
step dropping them otherwise; the optional cost and result text
round-trip too and Usage stays absent. -/
theorem decodeEnvelope_result_roundtrip (st sid : String) (d da nt : Int)
    (er : Bool) (tc : Option ℚ) (res : Option String)
    (hst : st ≠ "") (hsid : sid ≠ "") (hd : 0 < d) (hda : 0 < da)
    (hnt : 0 < nt) :
    decodeEnvelope (resultEnvelope st d da er nt sid tc res) =
      some (.result
        { Subtype := st, DurationMS := d, DurationAPIMS := da,
          IsError := er, NumTurns := nt, SessionID := sid,
          TotalCostUSD := tc, Usage := none, Result := res }) := by
  rcases tc with _ | c <;> rcases res with _ | r
  · have hmd : unmarshalMessageData (resultEnvelope st d da er nt sid none none) =
        some { Type' := "result", Subtype := st, SessionID := sid,
               DurationMS := d, DurationAPIMS := da, IsError := er,
               NumTurns := nt, TotalCostUSD := none, Result := none } := by
      simp [resultEnvelope, unmarshalMessageData, unmString, unmStringPtr,
        unmInt, unmBool, unmFloatPtr, unmObjPtr, unmAny, lookupJson,
        Rat.den_intCast, Rat.num_intCast]
    simp [decodeEnvelope, hmd, messageDataToMap, ParseMessage,
      parseResultMessage, getInt, lookupJson, hst, hsid, hd, hda, hnt,
      Except.toOption]
  · have hmd : unmarshalMessageData (resultEnvelope st d da er nt sid none (some r)) =
        some { Type' := "result", Subtype := st, SessionID := sid,
               DurationMS := d, DurationAPIMS := da, IsError := er,
               NumTurns := nt, TotalCostUSD := none, Result := some r } := by
      simp [resultEnvelope, unmarshalMessageData, unmString, unmStringPtr,
        unmInt, unmBool, unmFloatPtr, unmObjPtr, unmAny, lookupJson,
        Rat.den_intCast, Rat.num_intCast]
    simp [decodeEnvelope, hmd, messageDataToMap, ParseMessage,
      parseResultMessage, getInt, lookupJson, hst, hsid, hd, hda, hnt,
      Except.toOption]
  · have hmd : unmarshalMessageData (resultEnvelope st d da er nt sid (some c) none) =
        some { Type' := "result", Subtype := st, SessionID := sid,
               DurationMS := d, DurationAPIMS := da, IsError := er,
               NumTurns := nt, TotalCostUSD := some c, Result := none } := by
      simp [resultEnvelope, unmarshalMessageData, unmString, unmStringPtr,
        unmInt, unmBool, unmFloatPtr, unmObjPtr, unmAny, lookupJson,
        Rat.den_intCast, Rat.num_intCast]
    simp [decodeEnvelope, hmd, messageDataToMap, ParseMessage,
      parseResultMessage, getInt, lookupJson, hst, hsid, hd, hda, hnt,
      Except.toOption]
  · have hmd : unmarshalMessageData (resultEnvelope st d da er nt sid (some c) (some r)) =
        some { Type' := "result", Subtype := st, SessionID := sid,
               DurationMS := d, DurationAPIMS := da, IsError := er,
               NumTurns := nt, TotalCostUSD := some c, Result := some r } := by
      simp [resultEnvelope, unmarshalMessageData, unmString, unmStringPtr,
        unmInt, unmBool, unmFloatPtr, unmObjPtr, unmAny, lookupJson,
        Rat.den_intCast, Rat.num_intCast]
    simp [decodeEnvelope, hmd, messageDataToMap, ParseMessage,
      parseResultMessage, getInt, lookupJson, hst, hsid, hd, hda, hnt,
      Except.toOption]

set_option maxHeartbeats 2000000 in
/-- C2 (amended): every valid single-line envelope of a recognized type
with all required fields present decodes through the full pipeline with
every required field value unchanged, provided the top-level fields the
conversion step filters survive it: user and assistant envelopes
round-trip unconditionally (the message object passes through the
conversion unchanged), system envelopes need a non-empty subtype, and
result envelopes need non-empty subtype and session id and positive
integer fields. -/
theorem decodeEnvelope_roundtrip :
    (∀ (mo : JsonMap) (c : Option JsonValue),
      lookupJson mo "content" = c →
      (∀ l, c ≠ some (.arr l)) →
      decodeEnvelope [("type", .str "user"), ("message", .obj mo)] =
        some (.user (.raw c))) ∧
    (∀ (mo : JsonMap) (l : List JsonValue) (bs : List ContentBlock),
      lookupJson mo "content" = some (.arr l) →
      parseContentBlocks l = .ok bs →
      decodeEnvelope [("type", .str "user"), ("message", .obj mo)] =
        some (.user (.blocks bs))) ∧
    (∀ (mo : JsonMap) (mdl : String) (l : List JsonValue) (bs : List ContentBlock),
      lookupJson mo "model" = some (.str mdl) →
      lookupJson mo "content" = some (.arr l) →
      parseContentBlocks l = .ok bs →
      decodeEnvelope [("type", .str "assistant"), ("message", .obj mo)] =
        some (.assistant bs mdl)) ∧
    (∀ st : String, st ≠ "" →
      decodeEnvelope [("type", .str "system"), ("subtype", .str st)] =
        some (.system st
          [("type", .str "system"), ("subtype", .str st),
           ("is_error", .bool false)])) ∧
    (∀ (st sid : String) (d da nt : Int) (er : Bool) (tc : Option ℚ)
      (res : Option String),
      st ≠ "" → sid ≠ "" → 0 < d → 0 < da → 0 < nt →
      decodeEnvelope (resultEnvelope st d da er nt sid tc res) =
        some (.result
          { Subtype := st, DurationMS := d, DurationAPIMS := da,
            IsError := er, NumTurns := nt, SessionID := sid,
            TotalCostUSD := tc, Usage := none, Result := res })) := by
  refine ⟨?_, ?_, ?_, ?_, ?_⟩
  · intro mo c hc hne
    have hmd : unmarshalMessageData
        [("type", JsonValue.str "user"), ("message", JsonValue.obj mo)] =
        some { Type' := "user", Message := some mo } := by
      simp [unmarshalMessageData, unmString, unmStringPtr, unmInt, unmBool,
        unmFloatPtr, unmObjPtr, unmAny, lookupJson]
    subst hc
    rcases hcc : lookupJson mo "content" with _ | cv
    · simp [decodeEnvelope, hmd, messageDataToMap, ParseMessage,
        parseUserMessage, lookupJson, hcc, Except.toOption]
    · rw [hcc] at hne
      have hp := parseUserMessage_not_arr
        [("type", JsonValue.str "user"), ("message", JsonValue.obj mo),
         ("is_error", JsonValue.bool false)] mo cv
        (by simp [lookupJson]) hcc (fun l hl => hne l (by rw [hl]))
      simp [decodeEnvelope, hmd, messageDataToMap, ParseMessage, lookupJson, hp,
        Except.toOption]
  · intro mo l bs hc hb
    have hmd : unmarshalMessageData
        [("type", JsonValue.str "user"), ("message", JsonValue.obj mo)] =
        some { Type' := "user", Message := some mo } := by
      simp [unmarshalMessageData, unmString, unmStringPtr, unmInt, unmBool,
        unmFloatPtr, unmObjPtr, unmAny, lookupJson]
    simp [decodeEnvelope, hmd, messageDataToMap, ParseMessage,
      parseUserMessage, lookupJson, hc, hb, Except.toOption]
  · intro mo mdl l bs hmdl hc hb
    have hmd : unmarshalMessageData
        [("type", JsonValue.str "assistant"), ("message", JsonValue.obj mo)] =
        some { Type' := "assistant", Message := some mo } := by
      simp [unmarshalMessageData, unmString, unmStringPtr, unmInt, unmBool,
        unmFloatPtr, unmObjPtr, unmAny, lookupJson]
    simp [decodeEnvelope, hmd, messageDataToMap, ParseMessage,
      parseAssistantMessage, lookupJson, hmdl, hc, hb, Except.toOption]
  · intro st hst
    have hmd : unmarshalMessageData
        [("type", JsonValue.str "system"), ("subtype", JsonValue.str st)] =
        some { Type' := "system", Subtype := st } := by
      simp [unmarshalMessageData, unmString, unmStringPtr, unmInt, unmBool,
        unmFloatPtr, unmObjPtr, unmAny, lookupJson]
    simp [decodeEnvelope, hmd, messageDataToMap, ParseMessage,
      parseSystemMessage, lookupJson, hst, Except.toOption]
  · intro st sid d da nt er tc res hst hsid hd hda hnt
    exact decodeEnvelope_result_roundtrip st sid d da nt er tc res hst hsid
      hd hda hnt

/-- C2 witness: a user envelope with string content, the concrete
assistant line with model m1 and one text block hi, a system envelope
with subtype info, and the concrete result line of the claim with
duration_ms 1500, duration_api_ms 1200, is_error false, num_turns 1,
session_id s1 and total_cost_usd 0.01 all round-trip to exactly those
values, the result with Result absent. -/
theorem decodeEnvelope_roundtrip_witness :
    decodeEnvelope [("type", JsonValue.str "user"),
      ("message", JsonValue.obj [("content", JsonValue.str "hi")])] =
      some (.user (.raw (some (.str "hi")))) ∧
    decodeEnvelope [("type", JsonValue.str "assistant"),
      ("message", JsonValue.obj
        [("model", JsonValue.str "m1"),
         ("content", JsonValue.arr [JsonValue.obj
           [("type", JsonValue.str "text"), ("text", JsonValue.str "hi")]])])] =
      some (.assistant [.text "hi"] "m1") ∧
    decodeEnvelope [("type", JsonValue.str "system"),
      ("subtype", JsonValue.str "info")] =
      some (.system "info"
        [("type", JsonValue.str "system"), ("subtype", JsonValue.str "info"),
         ("is_error", JsonValue.bool false)]) ∧
    decodeEnvelope
      (resultEnvelope "success" 1500 1200 false 1 "s1" (some (mkRat 1 100)) none) =
      some (.result
        { Subtype := "success", DurationMS := 1500, DurationAPIMS := 1200,
          IsError := false, NumTurns := 1, SessionID := "s1",
          TotalCostUSD := some (mkRat 1 100), Usage := none, Result := none }) := by
  refine ⟨?_, ?_, ?_, ?_⟩
  · exact decodeEnvelope_roundtrip.1 [("content", JsonValue.str "hi")]
      (some (.str "hi")) rfl (fun l hl => by simp at hl)
  · exact decodeEnvelope_roundtrip.2.2.1
      [("model", JsonValue.str "m1"),
       ("content", JsonValue.arr [JsonValue.obj
         [("type", JsonValue.str "text"), ("text", JsonValue.str "hi")]])]
      "m1"
      [JsonValue.obj [("type", JsonValue.str "text"), ("text", JsonValue.str "hi")]]
      [.text "hi"] rfl rfl rfl
  · exact decodeEnvelope_roundtrip.2.2.2.1 "info" (by decide)
  · exact decodeEnvelope_roundtrip.2.2.2.2 "success" "s1" 1500 1200 1 false
      (some (mkRat 1 100)) none (by decide) (by decide) (by decide) (by decide)
      (by decide)

/-- An absent key in Boolean form yields an absent lookup. -/
theorem hasKey_false (m : JsonMap) (k : String) (h : hasKey m k = false) :
    lookupJson m k = none := by
  unfold hasKey at h
  cases hl : lookupJson m k
  · rfl
  · rw [hl] at h
    simp at h

/-- getInt only succeeds on present keys. -/
theorem getInt_some_hasKey (m : JsonMap) (k : String) (i : Int)
    (h : getInt m k = some i) : hasKey m k = true := by
  unfold getInt at h
  cases hl : lookupJson m k
  · rw [hl] at h
    simp at h
  · simp [hasKey, hl]

/-- A bad content block in the sense of blockBad fails to parse. -/
theorem parseContentBlock_error_of_bad (v : JsonValue) (h : blockBad v = true) :
    ∃ e, parseContentBlock v = .error e := by
  cases v
  all_goals try (solve | simp [blockBad] at h)
  next bd =>
  simp only [blockBad] at h
  rcases ht : lookupJson bd "type" with _ | tv
  · simp [parseContentBlock, ht]
  rw [ht] at h
  cases tv
  all_goals try (solve | simp [parseContentBlock, ht])
  next t =>
  by_cases h1 : t = "text"
  · subst h1
    simp only [String.reduceEq, reduceIte, Bool.not_eq_true'] at h
    have hx := hasKey_false bd "text" h
    simp [parseContentBlock, ht, hx]
  · by_cases h2 : t = "thinking"
    · subst h2
      simp only [String.reduceEq, reduceIte, Bool.or_eq_true,
        Bool.not_eq_true'] at h
      rcases h with hh | hh
      · have hx := hasKey_false bd "thinking" hh
        simp [parseContentBlock, ht, hx]
      · rcases hth : lookupJson bd "thinking" with _ | thv
        · simp [parseContentBlock, ht, hth]
        cases thv
        all_goals try (solve | simp [parseContentBlock, ht, hth])
        next s =>
        have hx := hasKey_false bd "signature" hh
        simp [parseContentBlock, ht, hth, hx]
    · by_cases h3 : t = "tool_use"
      · subst h3
        simp only [String.reduceEq, reduceIte, Bool.or_eq_true,
          Bool.not_eq_true'] at h
        rcases h with (hh | hh) | hh
        · have hx := hasKey_false bd "id" hh
          simp [parseContentBlock, ht, hx]
        · rcases hid : lookupJson bd "id" with _ | idv
          · simp [parseContentBlock, ht, hid]
          cases idv
          all_goals try (solve | simp [parseContentBlock, ht, hid])
          next si =>
          have hx := hasKey_false bd "name" hh
          simp [parseContentBlock, ht, hid, hx]
        · rcases hid : lookupJson bd "id" with _ | idv
          · simp [parseContentBlock, ht, hid]
          cases idv
          all_goals try (solve | simp [parseContentBlock, ht, hid])
          next si =>
          rcases hname : lookupJson bd "name" with _ | namev
          · simp [parseContentBlock, ht, hid, hname]
          cases namev
          all_goals try (solve | simp [parseContentBlock, ht, hid, hname])
          next sn =>
          have hx := hasKey_false bd "input" hh
          simp [parseContentBlock, ht, hid, hname, hx]
      · by_cases h4 : t = "tool_result"
        · subst h4
          simp only [String.reduceEq, reduceIte, Bool.not_eq_true'] at h
          have hx := hasKey_false bd "tool_use_id" h
          simp [parseContentBlock, ht, hx]
        · simp [parseContentBlock, ht, h1, h2, h3, h4]

/-- A block list containing a bad block fails to parse as a whole. -/
theorem parseContentBlocks_error_of_any (l : List JsonValue)
    (h : l.any blockBad = true) : ∃ e, parseContentBlocks l = .error e := by
  induction l with
  | nil => simp at h
  | cons x rest ih =>
    rw [List.any_cons] at h
    cases hb : blockBad x
    · rw [hb, Bool.false_or] at h
      obtain ⟨e, he⟩ := ih h
      cases hx : parseContentBlock x with
      | error e2 => exact ⟨e2, by simp [parseContentBlocks, hx]⟩
      | ok b => exact ⟨e, by simp [parseContentBlocks, hx, he]⟩
    · obtain ⟨e, he⟩ := parseContentBlock_error_of_bad x hb
      exact ⟨e, by simp [parseContentBlocks, he]⟩

/-- A result envelope with one of the six required keys absent fails to
parse. -/
theorem parseResultMessage_missing (m : JsonMap)
    (h : ((((hasKey m "subtype" = false ∨ hasKey m "duration_ms" = false) ∨
      hasKey m "duration_api_ms" = false) ∨ hasKey m "is_error" = false) ∨
      hasKey m "num_turns" = false) ∨ hasKey m "session_id" = false) :
    ∃ e, parseResultMessage m = .error e := by
  rcases hs : lookupJson m "subtype" with _ | sv
  · simp [parseResultMessage, hs]
  cases sv
  all_goals try (solve | simp [parseResultMessage, hs])
  next st =>
  rcases hd1 : getInt m "duration_ms" with _ | i1
  · simp [parseResultMessage, hs, hd1]
  rcases hd2 : getInt m "duration_api_ms" with _ | i2
  · simp [parseResultMessage, hs, hd1, hd2]
  rcases he : lookupJson m "is_error" with _ | ev
  · simp [parseResultMessage, hs, hd1, hd2, he]
  cases ev
  all_goals try (solve | simp [parseResultMessage, hs, hd1, hd2, he])
  next b =>
  rcases hn : getInt m "num_turns" with _ | i3
  · simp [parseResultMessage, hs, hd1, hd2, he, hn]
  rcases hsid : lookupJson m "session_id" with _ | sidv
  · simp [parseResultMessage, hs, hd1, hd2, he, hn, hsid]
  cases sidv
  all_goals try (solve | simp [parseResultMessage, hs, hd1, hd2, he, hn, hsid])
  next sid =>
  exfalso
  have k1 : hasKey m "subtype" = true := by simp [hasKey, hs]
  have k2 := getInt_some_hasKey m "duration_ms" i1 hd1
  have k3 := getInt_some_hasKey m "duration_api_ms" i2 hd2
  have k4 : hasKey m "is_error" = true := by simp [hasKey, he]
  have k5 := getInt_some_hasKey m "num_turns" i3 hn
  have k6 : hasKey m "session_id" = true := by simp [hasKey, hsid]
  rcases h with ((((h | h) | h) | h) | h) | h <;> simp_all

/-- C4 (amended): every envelope of the bad class of claimBadEnvelope
(a missing required field, or an unrecognized top-level type or
content-block type) is rejected by ParseMessage with a Decode error,
and in the receive loop a frame whose converted map fails to parse is
dropped without crashing or terminating the loop while the next valid
frame still decodes into a delivered message.  The loop-level exception
the counterexample exhibits — messageDataToMap re-emitting is_error —
is outside the parse-failure hypothesis of the second part. -/
theorem badEnvelope_errors_loop_continues :
    (∀ m : JsonMap, claimBadEnvelope m = true → ∃ e, ParseMessage m = .error e) ∧
    (∀ (bad good : MessageData) (rest : List MessageData) (e : String)
      (msg : Message),
      ParseMessage (messageDataToMap bad) = .error e →
      ParseMessage (messageDataToMap good) = .ok msg →
      receiveMessagesLoop (bad :: good :: rest) = msg :: receiveMessagesLoop rest) := by
  constructor
  · intro m hbad
    rcases ht : lookupJson m "type" with _ | tv
    · simp [ParseMessage, ht]
    cases tv
    all_goals try (solve | simp [ParseMessage, ht])
    next t =>
    simp only [claimBadEnvelope, ht] at hbad
    by_cases h1 : t = "user"
    · subst h1
      simp only [String.reduceEq, reduceIte] at hbad
      rcases hm : lookupJson m "message" with _ | mv
      · simp [ParseMessage, parseUserMessage, ht, hm]
      cases mv
      all_goals try (solve | rw [hm] at hbad; simp at hbad)
      next mo =>
      rw [hm] at hbad
      have hbad2 : (match lookupJson mo "content" with
          | some (.arr l) => l.any blockBad
          | _ => false) = true := hbad
      rcases hc : lookupJson mo "content" with _ | cv
      · rw [hc] at hbad2
        simp at hbad2
      cases cv
      all_goals try (solve | rw [hc] at hbad2; simp at hbad2)
      next l =>
      rw [hc] at hbad2
      have hany : l.any blockBad = true := hbad2
      obtain ⟨e, he⟩ := parseContentBlocks_error_of_any l hany
      exact ⟨e, by simp [ParseMessage, parseUserMessage, ht, hm, hc, he]⟩
    · by_cases h2 : t = "assistant"
      · subst h2
        simp only [String.reduceEq, reduceIte] at hbad
        rcases hm : lookupJson m "message" with _ | mv
        · simp [ParseMessage, parseAssistantMessage, ht, hm]
        cases mv
        all_goals try (solve | rw [hm] at hbad; simp at hbad)
        next mo =>
        rw [hm] at hbad
        have hbad2 : (!(hasKey mo "model") || !(hasKey mo "content") ||
            (match lookupJson mo "content" with
             | some (.arr l) => l.any blockBad
             | _ => false)) = true := hbad
        simp only [Bool.or_eq_true, Bool.not_eq_true'] at hbad2
        rcases hbad2 with (hh | hh) | hh
        · have hx := hasKey_false mo "model" hh
          simp [ParseMessage, parseAssistantMessage, ht, hm, hx]
        · rcases hmo : lookupJson mo "model" with _ | mv2
          · simp [ParseMessage, parseAssistantMessage, ht, hm, hmo]
          cases mv2
          all_goals try (solve |
            simp [ParseMessage, parseAssistantMessage, ht, hm, hmo])
          next ms =>
          have hx := hasKey_false mo "content" hh
          simp [ParseMessage, parseAssistantMessage, ht, hm, hmo, hx]
        · rcases hc : lookupJson mo "content" with _ | cv
          · rw [hc] at hh
            simp at hh
          cases cv
          all_goals try (solve | rw [hc] at hh; simp at hh)
          next l =>
          rw [hc] at hh
          have hany : l.any blockBad = true := hh
          obtain ⟨e, he⟩ := parseContentBlocks_error_of_any l hany
          rcases hmo : lookupJson mo "model" with _ | mv2
          · simp [ParseMessage, parseAssistantMessage, ht, hm, hmo]
          cases mv2
          all_goals try (solve |
            simp [ParseMessage, parseAssistantMessage, ht, hm, hmo])
          next ms =>
          exact ⟨e, by simp [ParseMessage, parseAssistantMessage, ht, hm, hmo,
            hc, he]⟩
      · by_cases h3 : t = "system"
        · subst h3
          simp only [String.reduceEq, reduceIte, Bool.not_eq_true'] at hbad
          have hx := hasKey_false m "subtype" hbad
          simp [ParseMessage, parseSystemMessage, ht, hx]
        · by_cases h4 : t = "result"
          · subst h4
            simp only [String.reduceEq, reduceIte, Bool.or_eq_true,
              Bool.not_eq_true'] at hbad
            obtain ⟨e, he⟩ := parseResultMessage_missing m hbad
            exact ⟨e, by simp [ParseMessage, ht, he]⟩
          · simp [ParseMessage, ht, h1, h2, h3, h4]
  · intro bad good rest e msg hbad hgood
    simp [receiveMessagesLoop, hbad, hgood]

/-- C4 witness: an envelope with an unrecognized type fails to parse,
and the receive loop drops a bad frame while the next valid frame still
becomes a delivered message. -/
theorem badEnvelope_errors_loop_continues_witness :
    (∃ e, ParseMessage [("type", JsonValue.str "bogus")] = .error e) ∧
    receiveMessagesLoop
      [{ Type' := "bogus" }, { Type' := "system", Subtype := "info" }] =
      [Message.system "info"
        [("type", JsonValue.str "system"), ("subtype", JsonValue.str "info"),
         ("is_error", JsonValue.bool false)]] := by
  refine ⟨badEnvelope_errors_loop_continues.1 [("type", JsonValue.str "bogus")] rfl, ?_⟩
  have h := badEnvelope_errors_loop_continues.2
    { Type' := "bogus" } { Type' := "system", Subtype := "info" } []
    "unknown message type: bogus"
    (Message.system "info"
      [("type", JsonValue.str "system"), ("subtype", JsonValue.str "info"),
       ("is_error", JsonValue.bool false)])
    rfl rfl
  simpa [receiveMessagesLoop] using h

/-- C4 counterexample: a result envelope missing only the required
is_error field belongs to the bad class of the claim, yet through the
actual receive path it is not rejected: it unmarshals with the zero
value, messageDataToMap unconditionally re-emits is_error, and the
frame is delivered as a ResultMessage with a fabricated IsError false
instead of being dropped; the claim as stated is false. -/
theorem receiveLoop_delivers_missing_is_error :
    claimBadEnvelope
      [("type", JsonValue.str "result"), ("subtype", JsonValue.str "success"),
       ("duration_ms", JsonValue.float (mkRat 1500 1)),
       ("duration_api_ms", JsonValue.float (mkRat 1200 1)),
       ("num_turns", JsonValue.float (mkRat 1 1)),
       ("session_id", JsonValue.str "s1")] = true ∧
    unmarshalMessageData
      [("type", JsonValue.str "result"), ("subtype", JsonValue.str "success"),
       ("duration_ms", JsonValue.float (mkRat 1500 1)),
       ("duration_api_ms", JsonValue.float (mkRat 1200 1)),
       ("num_turns", JsonValue.float (mkRat 1 1)),
       ("session_id", JsonValue.str "s1")] =
      some { Type' := "result", Subtype := "success", DurationMS := 1500,
             DurationAPIMS := 1200, NumTurns := 1, SessionID := "s1" } ∧
    receiveMessagesLoop
      [{ Type' := "result", Subtype := "success", DurationMS := 1500,
         DurationAPIMS := 1200, NumTurns := 1, SessionID := "s1" }] =
      [Message.result
        { Subtype := "success", DurationMS := 1500, DurationAPIMS := 1200,
          IsError := false, NumTurns := 1, SessionID := "s1",
          TotalCostUSD := none, Usage := none, Result := none }] ∧
    decodeEnvelope
      [("type", JsonValue.str "result"), ("subtype", JsonValue.str "success"),
       ("duration_ms", JsonValue.float (mkRat 1500 1)),
       ("duration_api_ms", JsonValue.float (mkRat 1200 1)),
       ("num_turns", JsonValue.float (mkRat 1 1)),
       ("session_id", JsonValue.str "s1")] =
      some (Message.result
        { Subtype := "success", DurationMS := 1500, DurationAPIMS := 1200,
          IsError := false, NumTurns := 1, SessionID := "s1",
          TotalCostUSD := none, Usage := none, Result := none }) :=
  ⟨rfl, rfl, rfl, rfl⟩

end ClaudeSDK
